import Mathlib

/-!
Verification development for the Power Load Balancer integration
(`custom_components/power_load_balancer`).  The Python source is embedded
shallowly: dictionaries become association lists over `String` keys, power
readings (Python floats) become rationals `ℚ`, Home Assistant entity states
become explicit environments, and each handler or policy becomes a pure
function from the balancer state (and the relevant environment) to the new
state together with an explicit description of the action taken.
-/

namespace PLB

/-- Association-list lookup with a default, modelling Python
`dict.get(key, default)` on `self._current_sensor_power` and friends. -/
def lookupD (m : List (String × ℚ)) (k : String) (d : ℚ) : ℚ :=
  match m with
  | [] => d
  | (k', v) :: rest => if k' = k then v else lookupD rest k d

/-- Association-list update, modelling Python `dict[key] = value`: an existing
key keeps its position, a new key is appended. -/
def setKey (m : List (String × ℚ)) (k : String) (v : ℚ) : List (String × ℚ) :=
  match m with
  | [] => [(k, v)]
  | (k', v') :: rest =>
      if k' = k then (k, v) :: rest else (k', v') :: setKey rest k v

/-- Association-list removal, modelling Python `dict.pop(key, None)`. -/
def removeKey (m : List (String × ℚ)) (k : String) : List (String × ℚ) :=
  match m with
  | [] => []
  | (k', v') :: rest =>
      if k' = k then rest else (k', v') :: removeKey rest k

/-- Membership test on the key set, modelling Python `key in dict`. -/
def hasKey (m : List (String × ℚ)) (k : String) : Bool :=
  match m with
  | [] => false
  | (k', _) :: rest => k' = k || hasKey rest k

/-- The raw `state` field of a Home Assistant sensor `State` object, as the
Python handlers case on it: the literal strings `"unknown"`/`"unavailable"`,
a string that `float()` parses to a number, or one it does not parse. -/
inductive RawState where
  | unknownState
  | unavailableState
  | numeric (q : ℚ)
  | nonNumeric
  deriving DecidableEq, Repr

/-- A Home Assistant sensor state as consumed by the power handlers: the raw
`state` value plus `attributes.get("unit_of_measurement")` (`none` when the
attribute is absent, in which case the code defaults to `"W"`). -/
structure HAState where
  state : RawState
  unit : Option String
  deriving DecidableEq, Repr

/-- From `validation.py`, `validate_power_value` (identical copy in
`utils.py`): a reading is accepted iff it parses to a float that is not
negative; `none` models raising `PowerSensorError`. -/
def validate_power_value : RawState → Option ℚ
  | RawState.numeric q => if q < 0 then none else some q
  | _ => none

/-- Python `str.lower()` as applied to unit-of-measurement strings
(character-wise ASCII lowercasing). -/
def strToLower (s : String) : String :=
  ⟨s.data.map Char.toLower⟩

/-- From `validation.py`, `convert_power_to_watts` (identical copy in
`utils.py`): unit-of-measurement normalisation to watts, with kW, MW and GW
cases and unknown units treated as watts. -/
def convert_power_to_watts (power : ℚ) (unit : Option String) : ℚ :=
  let u := strToLower (unit.getD "W")
  if u = "kw" ∨ u = "kilowatt" ∨ u = "kilowatts" then power * 1000
  else if u = "mw" ∨ u = "megawatt" ∨ u = "megawatts" then power * 1000000
  else if u = "gw" ∨ u = "gigawatt" ∨ u = "gigawatts" then power * 1000000000
  else if u = "w" ∨ u = "watt" ∨ u = "watts" then power
  else power

/-- From `power_balancer.py`, the static method
`PowerLoadBalancer._convert_power_to_watts`: kW and MW cases only, every
other unit (including gigawatts) falls through to watts. -/
def PowerLoadBalancer_convert_power_to_watts (power : ℚ) (unit : Option String) : ℚ :=
  let u := strToLower (unit.getD "W")
  if u = "kw" ∨ u = "kilowatt" ∨ u = "kilowatts" then power * 1000
  else if u = "mw" ∨ u = "megawatt" ∨ u = "megawatts" then power * 1000000
  else power

/-- Written from the spec's words only (for the refinement claim C9):
"W unchanged, kW multiplied by 1000, MW by 1e6, GW by 1e9, and any unknown
unit treated as watts". -/
def specUnitTable (power : ℚ) (unit : Option String) : ℚ :=
  let u := strToLower (unit.getD "W")
  if u = "kw" ∨ u = "kilowatt" ∨ u = "kilowatts" then power * 1000
  else if u = "mw" ∨ u = "megawatt" ∨ u = "megawatts" then power * 1000000
  else if u = "gw" ∨ u = "gigawatt" ∨ u = "gigawatts" then power * 1000000000
  else power

/-- One entry of the configured `monitored_sensors` list: the dictionary keys
`entity_id`, `appliance`, `importance` and `last_resort` as accessed through
`dict.get` in the source (`importance` missing means the sort key defaults
to 5; `last_resort` missing means `False`). -/
structure SensorConfig where
  entity_id : Option String
  appliance : Option String
  importance : Option Int
  last_resort : Bool
  deriving DecidableEq, Repr

/-- The mutable state of `PowerLoadBalancer` (`power_balancer.py`) that the
claims touch: the main sensor id, the configured sensor list, the budget,
the per-sensor wattage dictionary `_current_sensor_power`, the shed ledger
`_balanced_off_appliances` (its key list, in insertion order), the aggregate
`_estimated_total_power`, and the `_is_balancing_enabled` flag. -/
structure BalancerState where
  main_power_sensor_entity_id : String
  monitored_sensors : List SensorConfig
  power_budget : Int
  current_sensor_power : List (String × ℚ)
  balanced_off_appliances : List String
  estimated_total_power : ℚ
  is_balancing_enabled : Bool
  deriving DecidableEq, Repr

/-- Environment of appliance entity states: `hass.states.get(entity_id)`
restricted to the `state` string (`"on"`, `"off"`, `"unknown"`, ...);
`none` models a missing entity. -/
def getState (env : List (String × String)) (e : String) : Option String :=
  match env with
  | [] => none
  | (k, v) :: rest => if k = e then some v else getState rest e

/-- Environment of power-sensor entity states (`hass.states.get` on a sensor
entity, as a `HAState`); `none` models a missing entity. -/
def getSensorState (env : List (String × HAState)) (e : String) : Option HAState :=
  match env with
  | [] => none
  | (k, v) :: rest => if k = e then some v else getSensorState rest e

/-- Which policy the evaluation step invokes, for claims about
`async_check_and_balance`. -/
inductive PolicyInvoked where
  | shedding
  | restoring
  | noAction
  deriving DecidableEq, Repr

/-- From `power_balancer.py`, `async_check_and_balance`: when balancing is
disabled it returns; when the estimated total exceeds the budget it invokes
`_balance_down` (the shedding policy); otherwise it only logs that usage is
within budget and performs no action. -/
def async_check_and_balance (st : BalancerState) : PolicyInvoked :=
  if st.is_balancing_enabled = false then PolicyInvoked.noAction
  else if st.estimated_total_power > (st.power_budget : ℚ) then PolicyInvoked.shedding
  else PolicyInvoked.noAction

/-- From `power_balancer.py`, `_handle_power_sensor_state_change` (the same
estimator-update logic appears in `power_monitor.py`,
`PowerMonitor.handle_power_sensor_state_change`, with the balance check
replaced by a callback): updates the estimator state for one power-reading
event and reports which policy the subsequent `async_check_and_balance`
call invokes (`noAction` on every early-return path, where the balance
check is never reached). -/
def handle_power_sensor_state_change (st : BalancerState) (entity_id : String)
    (new_state : Option HAState) : BalancerState × PolicyInvoked :=
  match new_state with
  | none =>
      ({ st with current_sensor_power := removeKey st.current_sensor_power entity_id },
       PolicyInvoked.noAction)
  | some ns =>
      if ns.state = RawState.unknownState ∨ ns.state = RawState.unavailableState then
        ({ st with current_sensor_power := removeKey st.current_sensor_power entity_id },
         PolicyInvoked.noAction)
      else
        match validate_power_value ns.state with
        | none => (st, PolicyInvoked.noAction)
        | some power =>
            let power_watts := convert_power_to_watts power ns.unit
            let st' :=
              if entity_id = st.main_power_sensor_entity_id then
                { st with estimated_total_power := power_watts }
              else
                { st with current_sensor_power :=
                    setKey st.current_sensor_power entity_id power_watts }
            (st', async_check_and_balance st')

/-- The sort key of `_balance_down` / `BalancingEngine.balance_down`:
`x.get(CONF_IMPORTANCE, 5)`. -/
def importanceD (c : SensorConfig) : Int :=
  c.importance.getD 5

/-- The comparison relation used to sort candidates: ascending importance. -/
def impLE (a b : SensorConfig) : Prop :=
  importanceD a ≤ importanceD b

instance : DecidableRel impLE := fun a b => by
  unfold impLE; infer_instance

instance : IsTotal SensorConfig impLE :=
  ⟨fun a b => Int.le_total (importanceD a) (importanceD b)⟩

instance : IsTrans SensorConfig impLE :=
  ⟨fun _ _ _ h h' => le_trans h h'⟩

/-- Python `sorted(self._monitored_sensors, key=lambda x: x.get(CONF_IMPORTANCE, 5))`:
a stable sort by ascending importance.  Insertion sort with a non-strict
comparison has exactly Python's stable-sort semantics. -/
def sortByImportance (l : List SensorConfig) : List SensorConfig :=
  List.insertionSort impLE l

/-- Eligibility test of the `_balance_down` loop body
(`power_balancer.py`; identically in `BalancingEngine.balance_down` via the
`is_appliance_balanced_off` callback): the config names an appliance, the
appliance's observed state exists and is `"on"`, it is not already in the
shed ledger, and it is not flagged last-resort. -/
def eligibleForShedding (env : List (String × String)) (balanced_off : List String)
    (c : SensorConfig) : Bool :=
  match c.appliance with
  | none => false
  | some a =>
      if a = "" then false
      else
        match getState env a with
        | none => false
        | some s => s = "on" && !(balanced_off.contains a) && !c.last_resort

/-- From `power_balancer.py`, `_balance_down` (and
`BalancingEngine.balance_down`): sort the monitored sensors by ascending
importance (default 5) and schedule a turn-off for the first eligible
candidate, returning immediately; `none` models the fall-through warning
"Could not balance power below budget ...". -/
def balance_down_select (env : List (String × String)) (balanced_off : List String)
    (sensors : List SensorConfig) : Option String :=
  ((sortByImportance sensors).find? (eligibleForShedding env balanced_off)).bind
    (fun c => c.appliance)

/-- The restoration gate of `BalancingEngine.balance_up` for one ledger entry:
skipped when the appliance's state exists and is not `"off"`; otherwise the
recorded expected restoration wattage (falling back to the appliance's
sensor reading when it is not positive) must satisfy
`available_budget >= expected > 0`. -/
def balance_up_gate (env : List (String × String)) (power_budget : Int) (total : ℚ)
    (expected_restoration : String → ℚ) (sensor_power : String → ℚ)
    (a : String) : Bool :=
  (match getState env a with
   | some s => s = "off"
   | none => true) &&
  (let available : ℚ := (power_budget : ℚ) - total
   let e0 := expected_restoration a
   let expected := if e0 ≤ 0 then sensor_power a else e0
   decide (available ≥ expected) && decide (expected > 0))

/-- From `balancing_engine.py`, `BalancingEngine.balance_up`: walk the shed
ledger in order and restore the first appliance passing the gate, returning
immediately after scheduling that restore; `none` models "No appliances
eligible for restoration". -/
def balance_up_select (env : List (String × String)) (power_budget : Int) (total : ℚ)
    (expected_restoration : String → ℚ) (sensor_power : String → ℚ)
    (balanced_off : List String) : Option String :=
  balanced_off.find?
    (balance_up_gate env power_budget total expected_restoration sensor_power)

/-- From `appliance_controller.py`, the body of `auto_turn_on_task` inside
`ApplianceController.schedule_auto_turn_on`, after the delay expires:
returns `true` iff the task proceeds to call `turn_on_appliance_service`.
It returns early when balancing is disabled, when the appliance's state
exists and is not `"off"`, or when `available_budget < expected_power_value`
(the expected value being `self._expected_power_restoration.get(entity, 0.0)`);
there is no requirement that the expected value be positive. -/
def auto_turn_on_fires (is_balancing_enabled : Bool) (env : List (String × String))
    (entity_id : String) (power_budget : Int) (total : ℚ)
    (expected_power_restoration : List (String × ℚ)) : Bool :=
  is_balancing_enabled &&
  (match getState env entity_id with
   | some s => s = "off"
   | none => true) &&
  !(decide ((power_budget : ℚ) - total < lookupD expected_power_restoration entity_id 0))

/-- Circuit breaker states, the string constants of `circuit_breaker.py`
(identical copy in `utils.py`). -/
inductive CBState where
  | closed
  | open_
  | halfOpen
  deriving DecidableEq, Repr

/-- The mutable fields of `CircuitBreaker` (`circuit_breaker.py`, identical
copy in `utils.py`); `time.time()` values are modelled as rationals passed
in explicitly. -/
structure CircuitBreaker where
  failure_threshold : Nat
  timeout : ℚ
  failure_count : Nat
  last_failure_time : Option ℚ
  state : CBState
  deriving DecidableEq, Repr

/-- `CircuitBreaker.__init__` with the default threshold 5 and cooldown 60 s. -/
def CircuitBreaker.init : CircuitBreaker :=
  { failure_threshold := 5
    timeout := 60
    failure_count := 0
    last_failure_time := none
    state := CBState.closed }

/-- `CircuitBreaker._should_allow_request` at wall-clock time `now`: returns
whether the call is allowed together with the (possibly OPEN→HALF_OPEN
transitioned) breaker. -/
def CircuitBreaker.should_allow_request (cb : CircuitBreaker) (now : ℚ) :
    Bool × CircuitBreaker :=
  match cb.state with
  | CBState.closed => (true, cb)
  | CBState.open_ =>
      match cb.last_failure_time with
      | some t =>
          if now - t ≥ cb.timeout then (true, { cb with state := CBState.halfOpen })
          else (false, cb)
      | none => (false, cb)
  | CBState.halfOpen => (true, cb)

/-- `CircuitBreaker.record_success`: reset the counter and close. -/
def CircuitBreaker.record_success (cb : CircuitBreaker) : CircuitBreaker :=
  { cb with failure_count := 0, state := CBState.closed }

/-- `CircuitBreaker.record_failure` at time `now`: increment the counter,
record the failure time, and open the circuit when the counter reaches the
threshold. -/
def CircuitBreaker.record_failure (cb : CircuitBreaker) (now : ℚ) : CircuitBreaker :=
  let cb := { cb with
    failure_count := cb.failure_count + 1
    last_failure_time := some now }
  if cb.failure_count ≥ cb.failure_threshold then { cb with state := CBState.open_ }
  else cb

/-- What the wrapped coroutine would do if invoked. -/
inductive CallOutcome where
  | success
  | failure
  deriving DecidableEq, Repr

/-- Result of one call through the breaker-wrapped function. -/
inductive CallResult where
  /-- `CircuitBreakerOpenError` raised without invoking the wrapped function. -/
  | blockedOpen
  /-- The wrapped function ran and returned. -/
  | returned
  /-- The wrapped function ran and its exception was re-raised. -/
  | raisedThrough
  deriving DecidableEq, Repr

/-- The `wrapper` produced by `CircuitBreaker.__call__`, one call at time
`now` whose wrapped function would produce `outcome`: consult
`_should_allow_request`, fail fast with `CircuitBreakerOpenError` when
blocked, otherwise run the function and record success or failure. -/
def CircuitBreaker.call (cb : CircuitBreaker) (now : ℚ) (outcome : CallOutcome) :
    CallResult × CircuitBreaker :=
  let (allowed, cb) := cb.should_allow_request now
  if allowed = false then (CallResult.blockedOpen, cb)
  else
    match outcome with
    | CallOutcome.success => (CallResult.returned, cb.record_success)
    | CallOutcome.failure => (CallResult.raisedThrough, cb.record_failure now)

/-- Run a sequence of calls `(time, outcome)` through the breaker, returning
the per-call results and the final breaker. -/
def CircuitBreaker.run (cb : CircuitBreaker) :
    List (ℚ × CallOutcome) → List CallResult × CircuitBreaker
  | [] => ([], cb)
  | (now, outcome) :: rest =>
      let (r, cb') := cb.call now outcome
      let (rs, cb'') := cb'.run rest
      (r :: rs, cb'')

/-- Outcome of one invocation of a function wrapped by
`retry_with_backoff` (`retry.py`, identical copy in `utils.py`). -/
inductive AttemptOutcome where
  /-- The call returned normally. -/
  | ok
  /-- The call raised an exception in the `retry_on` tuple. -/
  | retryableErr
  /-- The call raised an exception not in the `retry_on` tuple. -/
  | nonRetryableErr
  deriving DecidableEq, Repr

/-- How a run of the retry wrapper ended. -/
inductive RetryEnd where
  | succeeded
  | raisedNonRetryable
  | raisedRetryable
  deriving DecidableEq, Repr

/-- Trace of a run of the retry wrapper: how many times the wrapped function
was invoked, the backoff delays slept (in order, in seconds), and how the
run ended. -/
structure RetryTrace where
  invocations : Nat
  delays : List ℚ
  ending : RetryEnd
  deriving DecidableEq, Repr

/-- The `for attempt in range(max_retries + 1)` loop of `retry_with_backoff`,
starting at attempt index `attempt` with `fuel = max_retries + 1 - attempt`
iterations remaining; `outcomes k` is what the wrapped function does on its
`k`-th invocation (0-based).  A non-retryable exception re-raises at once;
a retryable exception on the last attempt re-raises; otherwise the wrapper
sleeps `min(backoff_factor * 2 ** attempt, max_delay)` and retries. -/
def retryFrom (backoff_factor max_delay : ℚ) (outcomes : Nat → AttemptOutcome) :
    (fuel attempt : Nat) → RetryTrace
  | 0, _ =>
      -- unreachable for `fuel = max_retries + 1`: the loop always ends by
      -- returning or raising on the final attempt
      { invocations := 0, delays := [], ending := RetryEnd.raisedRetryable }
  | fuel + 1, attempt =>
      match outcomes attempt with
      | AttemptOutcome.ok =>
          { invocations := 1, delays := [], ending := RetryEnd.succeeded }
      | AttemptOutcome.nonRetryableErr =>
          { invocations := 1, delays := [], ending := RetryEnd.raisedNonRetryable }
      | AttemptOutcome.retryableErr =>
          if fuel = 0 then
            { invocations := 1, delays := [], ending := RetryEnd.raisedRetryable }
          else
            let delay := min (backoff_factor * 2 ^ attempt) max_delay
            let rest := retryFrom backoff_factor max_delay outcomes fuel (attempt + 1)
            { invocations := rest.invocations + 1
              delays := delay :: rest.delays
              ending := rest.ending }

/-- The `wrapper` produced by `retry_with_backoff(max_retries, backoff_factor,
max_delay, retry_on)` applied to a function whose successive invocations
behave as `outcomes`. -/
def retry_with_backoff (max_retries : Nat) (backoff_factor max_delay : ℚ)
    (outcomes : Nat → AttemptOutcome) : RetryTrace :=
  retryFrom backoff_factor max_delay outcomes (max_retries + 1) 0

/-- How a call to one of the appliance-control entry points ended. -/
inductive ServiceOutcome where
  /-- Some exception was raised to the caller (validation failure, entity
  missing/unavailable, or the underlying service call failing). -/
  | errorRaised
  /-- The appliance was not in the required state: warning logged and the
  function returned normally without any service call. -/
  | notInRequiredState
  /-- The underlying `turn_off`/`turn_on` service call completed. -/
  | completed
  deriving DecidableEq, Repr

/-- `validate_entity_id` (`validation.py` / `utils.py`): a non-empty string
containing a dot. -/
def valid_entity_id (entity_id : String) : Bool :=
  entity_id ≠ "" && entity_id.data.contains '.'

/-- From `power_balancer.py`, `async_turn_off_appliance_service` (the same
logic is `ApplianceController.turn_off_appliance_service` in
`appliance_controller.py`): the forced turn-off entry point.  `svc_ok` is
whether the single `safe_service_call` would succeed.  Returns the new
balancer state, the outcome, and how many actuation attempts were made.
No path writes to `_balanced_off_appliances`, `_current_sensor_power` or
`_estimated_total_power`. -/
def turn_off_appliance_service (env : List (String × String)) (svc_ok : Bool)
    (st : BalancerState) (entity_id : String) :
    BalancerState × ServiceOutcome × Nat :=
  if valid_entity_id entity_id = false then (st, ServiceOutcome.errorRaised, 0)
  else
    match getState env entity_id with
    | none => (st, ServiceOutcome.errorRaised, 0)
    | some s =>
        if s = "unknown" ∨ s = "unavailable" then (st, ServiceOutcome.errorRaised, 0)
        else if s ≠ "on" then (st, ServiceOutcome.notInRequiredState, 0)
        else if svc_ok then (st, ServiceOutcome.completed, 1)
        else (st, ServiceOutcome.errorRaised, 1)

/-- From `power_balancer.py`, `async_turn_on_appliance_service` (the same
logic is `ApplianceController.turn_on_appliance_service`): the forced
turn-on entry point; symmetric to the turn-off service with the
required observed state `"off"`.  No path writes to the ledger or the
power estimates. -/
def turn_on_appliance_service (env : List (String × String)) (svc_ok : Bool)
    (st : BalancerState) (entity_id : String) :
    BalancerState × ServiceOutcome × Nat :=
  if valid_entity_id entity_id = false then (st, ServiceOutcome.errorRaised, 0)
  else
    match getState env entity_id with
    | none => (st, ServiceOutcome.errorRaised, 0)
    | some s =>
        if s = "unknown" ∨ s = "unavailable" then (st, ServiceOutcome.errorRaised, 0)
        else if s ≠ "off" then (st, ServiceOutcome.notInRequiredState, 0)
        else if svc_ok then (st, ServiceOutcome.completed, 1)
        else (st, ServiceOutcome.errorRaised, 1)

/-- Python `self._balanced_off_appliances[entity_id] = {...}` on the ledger's
key list: an existing key keeps its position, a new key is appended. -/
def addLedgerKey (l : List String) (k : String) : List String :=
  if l.contains k then l else l ++ [k]

/-- From `power_balancer.py`, one invocation of the retry-decorated
`_turn_off_appliance` body (the same logic is
`ApplianceController.turn_off_appliance`): unlike the forced service entry
point, on a successful service call it records the appliance in the shed
ledger `_balanced_off_appliances`.  A failed service call raises
`RetryableError` (modelled by `errorRaised` here; the retry behaviour of the
decorator is modelled separately by `retry_with_backoff`). -/
def turn_off_appliance (env : List (String × String)) (svc_ok : Bool)
    (st : BalancerState) (entity_id : String) :
    BalancerState × ServiceOutcome :=
  if valid_entity_id entity_id = false then (st, ServiceOutcome.errorRaised)
  else
    match getState env entity_id with
    | none => (st, ServiceOutcome.errorRaised)
    | some s =>
        if s = "unknown" ∨ s = "unavailable" then (st, ServiceOutcome.errorRaised)
        else if s ≠ "on" then (st, ServiceOutcome.notInRequiredState)
        else if svc_ok then
          ({ st with balanced_off_appliances :=
              addLedgerKey st.balanced_off_appliances entity_id },
           ServiceOutcome.completed)
        else (st, ServiceOutcome.errorRaised)

/-! ### Helper lemmas -/

/-- Decomposition of a successful `List.find?`: the found element is the
first one satisfying the predicate. -/
theorem find_eq_some_split {α : Type} (p : α → Bool) :
    ∀ (l : List α) (a : α), l.find? p = some a →
      ∃ l₁ l₂, l = l₁ ++ a :: l₂ ∧ p a = true ∧ ∀ x ∈ l₁, p x = false := by
  intro l
  induction l with
  | nil => intro a h; simp [List.find?] at h
  | cons h t ih =>
      intro a hfind
      by_cases hp : p h = true
      · refine ⟨[], t, ?_, ?_, by simp⟩
        · simp [List.find?, hp] at hfind
          simp [hfind]
        · simp [List.find?, hp] at hfind
          simpa [hfind] using hp
      · have hp' : p h = false := by simpa using hp
        have ht : t.find? p = some a := by simpa [List.find?, hp'] using hfind
        obtain ⟨l₁, l₂, rfl, hpa, hall⟩ := ih a ht
        refine ⟨h :: l₁, l₂, by simp, hpa, ?_⟩
        intro x hx
        rcases List.mem_cons.mp hx with rfl | hx
        · exact hp'
        · exact hall x hx

/-- An untracked key looks up to the default. -/
theorem lookupD_default_of_not_hasKey (m : List (String × ℚ)) (k : String)
    (h : hasKey m k = false) : lookupD m k 0 = 0 := by
  induction m with
  | nil => rfl
  | cons p rest ih =>
      simp only [hasKey, Bool.or_eq_false_iff] at h
      simp only [lookupD]
      rw [if_neg (by simpa using h.1)]
      exact ih h.2

/-! ### C9 -/

/-- C9 counterexample: the module-level `convert_power_to_watts` and the
static method `PowerLoadBalancer._convert_power_to_watts` disagree on the
unit `"GW"`: the former multiplies by 1e9, the latter falls through and
treats gigawatts as plain watts, so the two helpers do not return the same
result for every numeric power value and unit string. -/
theorem C9_counterexample :
    PLB.convert_power_to_watts 1 (some "GW") = 1000000000 ∧
    PLB.PowerLoadBalancer_convert_power_to_watts 1 (some "GW") = 1 ∧
    PLB.convert_power_to_watts 1 (some "GW") ≠
      PLB.PowerLoadBalancer_convert_power_to_watts 1 (some "GW") := by
  refine ⟨?_, ?_, ?_⟩
  · unfold PLB.convert_power_to_watts
    rw [if_neg (by decide), if_neg (by decide), if_pos (by decide)]
    norm_num
  · unfold PLB.PowerLoadBalancer_convert_power_to_watts
    rw [if_neg (by decide), if_neg (by decide)]
  · unfold PLB.convert_power_to_watts PLB.PowerLoadBalancer_convert_power_to_watts
    rw [if_neg (by decide), if_neg (by decide), if_pos (by decide),
      if_neg (by decide), if_neg (by decide)]
    norm_num

/-- C9 (amended): the module-level `convert_power_to_watts` follows the
spec's unit table exactly (W unchanged, kW ×1000, MW ×1e6, GW ×1e9, unknown
units treated as watts), and the two conversion helpers agree on every unit
whose lowercasing is not one of the gigawatt spellings; they differ exactly
in that the static method lacks the GW case. -/
theorem C9_units (p : ℚ) (u : Option String) :
    PLB.convert_power_to_watts p u = PLB.specUnitTable p u ∧
    (¬ (PLB.strToLower (u.getD "W") = "gw" ∨ PLB.strToLower (u.getD "W") = "gigawatt" ∨
        PLB.strToLower (u.getD "W") = "gigawatts") →
      PLB.PowerLoadBalancer_convert_power_to_watts p u =
        PLB.convert_power_to_watts p u) := by
  constructor
  · unfold PLB.convert_power_to_watts PLB.specUnitTable
    dsimp only
    split_ifs <;> rfl
  · intro hgw
    unfold PLB.convert_power_to_watts PLB.PowerLoadBalancer_convert_power_to_watts
    dsimp only
    split_ifs <;> rfl

/-- C9 witness: the amended theorem applied at the concrete input
power 2, unit `"kW"`. -/
theorem C9_units_witness :
    PLB.convert_power_to_watts 2 (some "kW") = PLB.specUnitTable 2 (some "kW") ∧
    PLB.PowerLoadBalancer_convert_power_to_watts 2 (some "kW") =
      PLB.convert_power_to_watts 2 (some "kW") :=
  ⟨(C9_units 2 (some "kW")).1, (C9_units 2 (some "kW")).2 (by decide)⟩

/-! ### C1 -/

/-- C1: on a valid power-reading event (a numeric, non-negative value), if
the reporting entity is the main meter the aggregate estimate is replaced
outright by the new reading (converted to watts) and the per-sensor map is
untouched; if it is any other circuit, only that circuit's entry in the
per-sensor wattage map is updated and the aggregate estimate is left
unchanged. -/
theorem C1_estimator_update (st : BalancerState) (entity_id : String)
    (ns : HAState) (q : ℚ) (hq : ns.state = RawState.numeric q) (hnn : ¬ q < 0) :
    (entity_id = st.main_power_sensor_entity_id →
      (handle_power_sensor_state_change st entity_id (some ns)).1.estimated_total_power
        = convert_power_to_watts q ns.unit ∧
      (handle_power_sensor_state_change st entity_id (some ns)).1.current_sensor_power
        = st.current_sensor_power) ∧
    (entity_id ≠ st.main_power_sensor_entity_id →
      (handle_power_sensor_state_change st entity_id (some ns)).1.estimated_total_power
        = st.estimated_total_power ∧
      (handle_power_sensor_state_change st entity_id (some ns)).1.current_sensor_power
        = setKey st.current_sensor_power entity_id (convert_power_to_watts q ns.unit)) := by
  have hvs : validate_power_value (RawState.numeric q) = some q := by
    simp [validate_power_value, hnn]
  constructor
  · intro hmain
    simp [handle_power_sensor_state_change, hq, hvs, hmain]
  · intro hmain
    simp [handle_power_sensor_state_change, hq, hvs, hmain]

/-- C1 witness, the spec's no-double-counting scenario: from a fresh state,
a main-meter reading of 500 W replaces the aggregate with 500; then a
non-main circuit reading of 80 W on the resulting state leaves the total at
500 (not 580) and records 80 W for that circuit only. -/
theorem C1_estimator_update_witness :
    (handle_power_sensor_state_change
        ⟨"sensor.main", [], 1000, [], [], 0, true⟩ "sensor.main"
        (some ⟨RawState.numeric 500, none⟩)).1.estimated_total_power = 500 ∧
    (handle_power_sensor_state_change
        ⟨"sensor.main", [], 1000, [], [], 500, true⟩ "sensor.circuit"
        (some ⟨RawState.numeric 80, none⟩)).1.estimated_total_power = 500 ∧
    (handle_power_sensor_state_change
        ⟨"sensor.main", [], 1000, [], [], 500, true⟩ "sensor.circuit"
        (some ⟨RawState.numeric 80, none⟩)).1.current_sensor_power
      = [("sensor.circuit", 80)] := by
  refine ⟨?_, ?_, ?_⟩
  · have h := (C1_estimator_update ⟨"sensor.main", [], 1000, [], [], 0, true⟩
      "sensor.main" ⟨RawState.numeric 500, none⟩ 500 rfl (by norm_num)).1 rfl
    rw [h.1]
    decide
  · have h := (C1_estimator_update ⟨"sensor.main", [], 1000, [], [], 500, true⟩
      "sensor.circuit" ⟨RawState.numeric 80, none⟩ 80 rfl (by norm_num)).2 (by decide)
    exact h.1
  · have h := (C1_estimator_update ⟨"sensor.main", [], 1000, [], [], 500, true⟩
      "sensor.circuit" ⟨RawState.numeric 80, none⟩ 80 rfl (by norm_num)).2 (by decide)
    rw [h.2]
    decide

/-! ### C3 -/

/-- C3 counterexample: in a state where balancing is enabled and the
estimated total (900 W) does not exceed the budget (1000 W), the evaluation
step `async_check_and_balance` performs no action at all — the restoration
policy is not invoked, contradicting the claim that `total <= budget`
invokes the Restoration Policy once. -/
theorem C3_counterexample :
    (⟨"sensor.main", [], 1000, [], ["switch.shed"], 900, true⟩ :
        BalancerState).is_balancing_enabled = true ∧
    (⟨"sensor.main", [], 1000, [], ["switch.shed"], 900, true⟩ :
        BalancerState).estimated_total_power ≤
      ((⟨"sensor.main", [], 1000, [], ["switch.shed"], 900, true⟩ :
        BalancerState).power_budget : ℚ) ∧
    async_check_and_balance ⟨"sensor.main", [], 1000, [], ["switch.shed"], 900, true⟩
      = PolicyInvoked.noAction := by
  refine ⟨rfl, by norm_num, by decide⟩

/-- C3 (amended): on a valid power-reading event the handler first updates
the estimator and then evaluates on the updated state; the evaluation
invokes the shedding policy exactly when balancing is enabled and the
updated total exceeds the budget, and otherwise performs no state-changing
action — in particular the restoration policy is never invoked from the
evaluation step (restoration is driven only by the auto-restore timers). -/
theorem C3_evaluation_step (st : BalancerState) (entity_id : String)
    (ns : HAState) (q : ℚ) (hq : ns.state = RawState.numeric q) (hnn : ¬ q < 0) :
    (handle_power_sensor_state_change st entity_id (some ns)).2
      = async_check_and_balance (handle_power_sensor_state_change st entity_id (some ns)).1 ∧
    ((handle_power_sensor_state_change st entity_id (some ns)).2 = PolicyInvoked.shedding ↔
      (handle_power_sensor_state_change st entity_id (some ns)).1.is_balancing_enabled = true ∧
      (handle_power_sensor_state_change st entity_id (some ns)).1.estimated_total_power >
        ((handle_power_sensor_state_change st entity_id (some ns)).1.power_budget : ℚ)) ∧
    (∀ s : BalancerState, async_check_and_balance s ≠ PolicyInvoked.restoring) := by
  have hvs : validate_power_value (RawState.numeric q) = some q := by
    simp [validate_power_value, hnn]
  have hane : ∀ s : BalancerState, async_check_and_balance s ≠ PolicyInvoked.restoring := by
    intro s
    unfold async_check_and_balance
    split_ifs <;> simp
  have hiff : ∀ s : BalancerState, (async_check_and_balance s = PolicyInvoked.shedding ↔
      s.is_balancing_enabled = true ∧ s.estimated_total_power > (s.power_budget : ℚ)) := by
    intro s
    unfold async_check_and_balance
    split_ifs with h1 h2
    · simp [h1]
    · have h1' : s.is_balancing_enabled = true := by simpa using h1
      simp [h1', h2]
    · simp [h2]
  have heq : (handle_power_sensor_state_change st entity_id (some ns)).2
      = async_check_and_balance (handle_power_sensor_state_change st entity_id (some ns)).1 := by
    simp [handle_power_sensor_state_change, hq, hvs]
  refine ⟨heq, ?_, hane⟩
  rw [heq]
  exact hiff _

/-- C3 witness: the amended theorem applied at a concrete over-budget event
(main meter reports 1100 W against a 1000 W budget), where the evaluation
invokes the shedding policy. -/
theorem C3_evaluation_step_witness :
    (handle_power_sensor_state_change ⟨"sensor.main", [], 1000, [], [], 0, true⟩
        "sensor.main" (some ⟨RawState.numeric 1100, none⟩)).2
      = async_check_and_balance
          (handle_power_sensor_state_change ⟨"sensor.main", [], 1000, [], [], 0, true⟩
            "sensor.main" (some ⟨RawState.numeric 1100, none⟩)).1 ∧
    (handle_power_sensor_state_change ⟨"sensor.main", [], 1000, [], [], 0, true⟩
        "sensor.main" (some ⟨RawState.numeric 1100, none⟩)).2 = PolicyInvoked.shedding := by
  have h := C3_evaluation_step ⟨"sensor.main", [], 1000, [], [], 0, true⟩
    "sensor.main" ⟨RawState.numeric 1100, none⟩ 1100 rfl (by norm_num)
  refine ⟨h.1, h.2.1.mpr ?_⟩
  constructor
  · decide
  · decide

/-! ### C8 -/

/-- C8 counterexample: a circuit whose last valid reading was 80 W reports
the negative value -5.  Validation fails with `PowerSensorError` and the
handler returns normally, but the circuit's tracked wattage is NOT dropped
to 0 — the previous 80 W entry survives in the per-sensor map, contradicting
the claim that after the event the offending circuit contributes 0. -/
theorem C8_counterexample :
    (handle_power_sensor_state_change
        ⟨"sensor.main", [], 1000, [("sensor.heater", 80)], [], 500, true⟩
        "sensor.heater" (some ⟨RawState.numeric (-5), none⟩)).2
      = PolicyInvoked.noAction ∧
    lookupD (handle_power_sensor_state_change
        ⟨"sensor.main", [], 1000, [("sensor.heater", 80)], [], 500, true⟩
        "sensor.heater" (some ⟨RawState.numeric (-5), none⟩)).1.current_sensor_power
        "sensor.heater" 0 = 80 ∧
    (80 : ℚ) ≠ 0 := by
  refine ⟨by decide, by decide, by norm_num⟩

/-- C8 (amended): a power-sensor event whose value is non-numeric or
negative fails validation with `PowerSensorError`; the handler catches it
and returns normally (the event loop is not crashed, and the evaluation step
is not reached), the invalid reading is discarded, and the balancer state is
completely unchanged — in particular the offending circuit keeps its
previously tracked wattage, and contributes 0 only if it was never
tracked. -/
theorem C8_invalid_reading (st : BalancerState) (entity_id : String) (ns : HAState)
    (hval : validate_power_value ns.state = none)
    (h1 : ns.state ≠ RawState.unknownState) (h2 : ns.state ≠ RawState.unavailableState) :
    handle_power_sensor_state_change st entity_id (some ns) = (st, PolicyInvoked.noAction) ∧
    (hasKey st.current_sensor_power entity_id = false →
      lookupD (handle_power_sensor_state_change st entity_id (some ns)).1.current_sensor_power
        entity_id 0 = 0) := by
  have hmain : handle_power_sensor_state_change st entity_id (some ns)
      = (st, PolicyInvoked.noAction) := by
    simp [handle_power_sensor_state_change, h1, h2, hval]
  refine ⟨hmain, ?_⟩
  intro hk
  rw [hmain]
  exact lookupD_default_of_not_hasKey st.current_sensor_power entity_id hk

/-- C8 witness: the amended theorem applied to a non-numeric reading on a
fresh state with no tracked circuits. -/
theorem C8_invalid_reading_witness :
    handle_power_sensor_state_change ⟨"sensor.main", [], 1000, [], [], 500, true⟩
        "sensor.heater" (some ⟨RawState.nonNumeric, none⟩)
      = (⟨"sensor.main", [], 1000, [], [], 500, true⟩, PolicyInvoked.noAction) ∧
    lookupD (handle_power_sensor_state_change
        ⟨"sensor.main", [], 1000, [], [], 500, true⟩
        "sensor.heater" (some ⟨RawState.nonNumeric, none⟩)).1.current_sensor_power
        "sensor.heater" 0 = 0 :=
  ⟨(C8_invalid_reading ⟨"sensor.main", [], 1000, [], [], 500, true⟩ "sensor.heater"
      ⟨RawState.nonNumeric, none⟩ (by decide) (by decide) (by decide)).1,
   (C8_invalid_reading ⟨"sensor.main", [], 1000, [], [], 500, true⟩ "sensor.heater"
      ⟨RawState.nonNumeric, none⟩ (by decide) (by decide) (by decide)).2 (by decide)⟩

/-! ### C10 -/

/-- C10: when the target entity of a forced service call exists and is in a
usable state that does not match the required precondition (not `"on"` for
the forced turn-off, not `"off"` for the forced turn-on), the service
returns normally with no actuation attempt and the balancer state is
unchanged — a silent no-op rather than an error. -/
theorem C10_precondition_mismatch (env : List (String × String)) (svc_ok : Bool)
    (st : BalancerState) (entity_id : String) (s : String)
    (hvalid : valid_entity_id entity_id = true)
    (hs : getState env entity_id = some s)
    (h1 : s ≠ "unknown") (h2 : s ≠ "unavailable") :
    (s ≠ "on" →
      turn_off_appliance_service env svc_ok st entity_id
        = (st, ServiceOutcome.notInRequiredState, 0)) ∧
    (s ≠ "off" →
      turn_on_appliance_service env svc_ok st entity_id
        = (st, ServiceOutcome.notInRequiredState, 0)) := by
  constructor
  · intro hon
    simp [turn_off_appliance_service, hvalid, hs, h1, h2, hon]
  · intro hoff
    simp [turn_on_appliance_service, hvalid, hs, h1, h2, hoff]

/-- C10 witness: the theorem applied to an appliance observed `"off"` for
the forced turn-off and one observed `"on"` for the forced turn-on. -/
theorem C10_precondition_mismatch_witness :
    turn_off_appliance_service [("switch.a", "off")] true
        ⟨"sensor.main", [], 1000, [], [], 500, true⟩ "switch.a"
      = (⟨"sensor.main", [], 1000, [], [], 500, true⟩,
          ServiceOutcome.notInRequiredState, 0) ∧
    turn_on_appliance_service [("switch.b", "on")] true
        ⟨"sensor.main", [], 1000, [], [], 500, true⟩ "switch.b"
      = (⟨"sensor.main", [], 1000, [], [], 500, true⟩,
          ServiceOutcome.notInRequiredState, 0) :=
  ⟨(C10_precondition_mismatch [("switch.a", "off")] true
      ⟨"sensor.main", [], 1000, [], [], 500, true⟩ "switch.a" "off"
      (by decide) (by decide) (by decide) (by decide)).1 (by decide),
   (C10_precondition_mismatch [("switch.b", "on")] true
      ⟨"sensor.main", [], 1000, [], [], 500, true⟩ "switch.b" "on"
      (by decide) (by decide) (by decide) (by decide)).2 (by decide)⟩

/-! ### C7 -/

/-- C7 counterexample: a forced turn-off of an appliance observed `"on"`
completes its service call, yet the appliance is not recorded in the shed
ledger — `_balanced_off_appliances` stays empty, contradicting the claim
that the forced turn-off performs ledger bookkeeping. -/
theorem C7_counterexample :
    (turn_off_appliance_service [("switch.a", "on")] true
        ⟨"sensor.main", [], 1000, [], [], 500, true⟩ "switch.a").2.1
      = ServiceOutcome.completed ∧
    (turn_off_appliance_service [("switch.a", "on")] true
        ⟨"sensor.main", [], 1000, [], [], 500, true⟩ "switch.a").1.balanced_off_appliances
      = [] := by
  refine ⟨by decide, by decide⟩

/-- C7 (amended): the forced service entry points bypass policy selection
and make at most one actuation attempt (no retry/circuit-breaker wrapping),
and they perform no ledger bookkeeping at all — the balancer state, ledger
included, is returned unchanged on every path of both services.  Ledger
recording happens only in the retry-decorated internal turn-off
`_turn_off_appliance` used by the balancing policy, which appends the
appliance to the ledger on a successful service call. -/
theorem C7_forced_services (env : List (String × String)) (svc_ok : Bool)
    (st : BalancerState) (entity_id : String) :
    (turn_off_appliance_service env svc_ok st entity_id).1 = st ∧
    (turn_off_appliance_service env svc_ok st entity_id).2.2 ≤ 1 ∧
    (turn_on_appliance_service env svc_ok st entity_id).1 = st ∧
    (turn_on_appliance_service env svc_ok st entity_id).2.2 ≤ 1 ∧
    (valid_entity_id entity_id = true → getState env entity_id = some "on" →
      (turn_off_appliance env true st entity_id).1.balanced_off_appliances
        = addLedgerKey st.balanced_off_appliances entity_id ∧
      (turn_off_appliance env true st entity_id).2 = ServiceOutcome.completed) := by
  refine ⟨?_, ?_, ?_, ?_, ?_⟩
  · unfold turn_off_appliance_service
    split
    · rfl
    · split
      · rfl
      · split_ifs <;> rfl
  · unfold turn_off_appliance_service
    split
    · simp
    · split
      · simp
      · split_ifs <;> simp
  · unfold turn_on_appliance_service
    split
    · rfl
    · split
      · rfl
      · split_ifs <;> rfl
  · unfold turn_on_appliance_service
    split
    · simp
    · split
      · simp
      · split_ifs <;> simp
  · intro hvalid hon
    simp [turn_off_appliance, hvalid, hon]

/-- C7 witness: the amended theorem applied to a concrete appliance observed
`"on"`: the forced turn-off leaves the state unchanged while the internal
policy-path turn-off records the appliance in the ledger. -/
theorem C7_forced_services_witness :
    (turn_off_appliance_service [("switch.a", "on")] true
        ⟨"sensor.main", [], 1000, [], [], 500, true⟩ "switch.a").1
      = ⟨"sensor.main", [], 1000, [], [], 500, true⟩ ∧
    (turn_off_appliance [("switch.a", "on")] true
        ⟨"sensor.main", [], 1000, [], [], 500, true⟩ "switch.a").1.balanced_off_appliances
      = addLedgerKey [] "switch.a" :=
  ⟨(C7_forced_services [("switch.a", "on")] true
      ⟨"sensor.main", [], 1000, [], [], 500, true⟩ "switch.a").1,
   ((C7_forced_services [("switch.a", "on")] true
      ⟨"sensor.main", [], 1000, [], [], 500, true⟩ "switch.a").2.2.2.2
      (by decide) (by decide)).1⟩

/-! ### C2 -/

/-- Filtering by an importance value commutes with ordered insertion: the
elements skipped over have strictly smaller importance than the inserted
one, hence a different importance from it. -/
theorem filter_orderedInsert (k : Int) (c : SensorConfig) (l : List SensorConfig) :
    (List.orderedInsert impLE c l).filter (fun x => decide (importanceD x = k))
      = if importanceD c = k then
          c :: l.filter (fun x => decide (importanceD x = k))
        else l.filter (fun x => decide (importanceD x = k)) := by
  induction l with
  | nil =>
      simp only [List.orderedInsert, List.filter_cons, List.filter_nil]
      by_cases hc : importanceD c = k <;> simp [hc]
  | cons b t ih =>
      by_cases hle : impLE c b
      · rw [List.orderedInsert_of_le _ _ hle, List.filter_cons]
        by_cases hc : importanceD c = k <;> simp [hc]
      · have hle' : ¬ importanceD c ≤ importanceD b := hle
        have hlt : importanceD b < importanceD c := lt_of_not_le hle'
        simp only [List.orderedInsert, if_neg hle, List.filter_cons, ih]
        by_cases hc : importanceD c = k
        · have hbk : importanceD b ≠ k := by
            intro hbk
            rw [hc] at hlt
            rw [hbk] at hlt
            exact lt_irrefl _ hlt
          simp [hc, hbk]
        · simp [hc]

/-- Stability of the Python sort in filter form: the sub-sequence of configs
with any fixed importance is preserved, i.e. ties keep configuration
order. -/
theorem filter_sortByImportance (k : Int) (l : List SensorConfig) :
    (sortByImportance l).filter (fun x => decide (importanceD x = k))
      = l.filter (fun x => decide (importanceD x = k)) := by
  induction l with
  | nil => rfl
  | cons b t ih =>
      simp only [sortByImportance, List.insertionSort] at *
      rw [filter_orderedInsert]
      by_cases hb : importanceD b = k
      · simp [List.filter_cons, hb, ih]
      · simp [List.filter_cons, hb, ih]

/-- An eligible config names a non-empty appliance that is observed on, not
in the ledger, and not last-resort. -/
theorem eligible_elim (env : List (String × String)) (off : List String)
    (c : SensorConfig) (h : eligibleForShedding env off c = true) :
    ∃ a : String, c.appliance = some a ∧ a ≠ "" ∧ getState env a = some "on" ∧
      off.contains a = false ∧ c.last_resort = false := by
  unfold eligibleForShedding at h
  match hc : c.appliance with
  | none =>
      rw [hc] at h
      exact Bool.noConfusion h
  | some a =>
      rw [hc] at h
      dsimp only at h
      by_cases ha : a = ""
      · rw [if_pos ha] at h
        exact Bool.noConfusion h
      · rw [if_neg ha] at h
        match hg : getState env a with
        | none =>
            rw [hg] at h
            exact Bool.noConfusion h
        | some s =>
            rw [hg] at h
            dsimp only at h
            simp only [Bool.and_eq_true, decide_eq_true_eq, Bool.not_eq_true'] at h
            obtain ⟨⟨hs, hoff⟩, hlr⟩ := h
            exact ⟨a, rfl, ha, by rw [hg, hs], hoff, hlr⟩

/-- C2: the shedding evaluation of `_balance_down` /
`BalancingEngine.balance_down`.  The candidate list is the monitored-sensor
list stably sorted by ascending importance (missing importance defaulting
to 5; the filter identity expresses that ties keep configuration order);
when an appliance is selected it is the appliance of the first eligible
config in that order — observed `"on"`, not in the shed ledger, not
last-resort — and the procedure selects at most this single appliance;
when no candidate qualifies nothing is selected (only the warning is
emitted), and that happens exactly when no monitored config is eligible. -/
theorem C2_shedding_selection (env : List (String × String)) (off : List String)
    (sensors : List SensorConfig) :
    List.Sorted impLE (sortByImportance sensors) ∧
    (sortByImportance sensors).Perm sensors ∧
    (∀ k : Int, (sortByImportance sensors).filter (fun c => decide (importanceD c = k))
        = sensors.filter (fun c => decide (importanceD c = k))) ∧
    (∀ a : String, balance_down_select env off sensors = some a →
      ∃ l₁ c l₂, sortByImportance sensors = l₁ ++ c :: l₂ ∧
        eligibleForShedding env off c = true ∧ c.appliance = some a ∧
        getState env a = some "on" ∧ off.contains a = false ∧ c.last_resort = false ∧
        ∀ c' ∈ l₁, eligibleForShedding env off c' = false) ∧
    (balance_down_select env off sensors = none ↔
      ∀ c ∈ sensors, eligibleForShedding env off c = false) := by
  refine ⟨List.sorted_insertionSort impLE sensors, List.perm_insertionSort impLE sensors,
    fun k => filter_sortByImportance k sensors, ?_, ?_⟩
  · intro a hsel
    unfold balance_down_select at hsel
    match hf : (sortByImportance sensors).find? (eligibleForShedding env off) with
    | none => rw [hf] at hsel; cases hsel
    | some c =>
        rw [hf, Option.some_bind'] at hsel
        obtain ⟨l₁, l₂, hsplit, helig, hfirst⟩ :=
          find_eq_some_split (eligibleForShedding env off) _ c hf
        obtain ⟨a', hap, _, hon, hoff, hlr⟩ := eligible_elim env off c helig
        have haa : a' = a := by
          rw [hap] at hsel
          simpa using hsel
        subst haa
        exact ⟨l₁, c, l₂, hsplit, helig, hap, hon, hoff, hlr, hfirst⟩
  · constructor
    · intro hsel c hc
      by_contra hne
      have helig : eligibleForShedding env off c = true := by
        simpa using hne
      have hmem : c ∈ sortByImportance sensors :=
        ((List.perm_insertionSort impLE sensors).mem_iff).mpr hc
      match hf : (sortByImportance sensors).find? (eligibleForShedding env off) with
      | none =>
          rw [List.find?_eq_none] at hf
          exact absurd helig (by simpa using hf c hmem)
      | some c' =>
          obtain ⟨a', hap, _, _, _, _⟩ :=
            eligible_elim env off c' (List.find?_some hf)
          unfold balance_down_select at hsel
          rw [hf, Option.some_bind', hap] at hsel
          cases hsel
    · intro hall
      unfold balance_down_select
      have hf : (sortByImportance sensors).find? (eligibleForShedding env off) = none := by
        rw [List.find?_eq_none]
        intro c hc
        have hmem : c ∈ sensors :=
          ((List.perm_insertionSort impLE sensors).mem_iff).mp hc
        simp [hall c hmem]
      rw [hf]
      rfl

/-- C2 witness, the spec's priority-ordering scenario: appliances with
importance 3, 7 and 5 all observed on, empty ledger — the importance-3
appliance is selected, and the amended decomposition holds at that input. -/
theorem C2_shedding_selection_witness :
    balance_down_select
        [("switch.a", "on"), ("switch.b", "on"), ("switch.c", "on")] []
        [⟨some "sensor.a", some "switch.a", some 3, false⟩,
         ⟨some "sensor.b", some "switch.b", some 7, false⟩,
         ⟨some "sensor.c", some "switch.c", some 5, false⟩]
      = some "switch.a" ∧
    (∃ l₁ c l₂,
      sortByImportance
          [⟨some "sensor.a", some "switch.a", some 3, false⟩,
           ⟨some "sensor.b", some "switch.b", some 7, false⟩,
           ⟨some "sensor.c", some "switch.c", some 5, false⟩] = l₁ ++ c :: l₂ ∧
      eligibleForShedding
          [("switch.a", "on"), ("switch.b", "on"), ("switch.c", "on")] [] c = true ∧
      c.appliance = some "switch.a" ∧
      getState [("switch.a", "on"), ("switch.b", "on"), ("switch.c", "on")] "switch.a"
        = some "on" ∧
      ([] : List String).contains "switch.a" = false ∧ c.last_resort = false ∧
      ∀ c' ∈ l₁, eligibleForShedding
          [("switch.a", "on"), ("switch.b", "on"), ("switch.c", "on")] [] c' = false) :=
  ⟨by decide,
   (C2_shedding_selection
      [("switch.a", "on"), ("switch.b", "on"), ("switch.c", "on")] []
      [⟨some "sensor.a", some "switch.a", some 3, false⟩,
       ⟨some "sensor.b", some "switch.b", some 7, false⟩,
       ⟨some "sensor.c", some "switch.c", some 5, false⟩]).2.2.2.1
      "switch.a" (by decide)⟩

/-! ### C4 -/

/-- C4 counterexample: the auto-restore timer path restores on a zero
expected wattage.  With budget 1000 W, total 900 W, the appliance observed
`"off"` and no recorded expected restoration wattage (so
`_expected_power_restoration.get(entity, 0.0) = 0`), the timer body
proceeds to call the turn-on service, because its only gate is
`available_budget < expected_power_value` — contradicting the claim that an
expected wattage of zero or less never leads to an automatic
restoration. -/
theorem C4_counterexample :
    lookupD [] "switch.a" 0 = 0 ∧
    auto_turn_on_fires true [("switch.a", "off")] "switch.a" 1000 900 [] = true := by
  constructor
  · rfl
  · norm_num [auto_turn_on_fires, getState, lookupD]

/-- C4 (amended): the two restoration paths gate differently.  The policy
pass (`BalancingEngine.balance_up`) restores an appliance only when
`budget - total >= expected > 0`, where `expected` is the recorded expected
restoration wattage, falling back to the appliance's sensor reading when
the recorded value is not positive — so a non-positive effective expected
wattage never restores there.  The auto-restore timer path
(`schedule_auto_turn_on`) only requires `budget - total >= expected` and
therefore does restore when the expected value is zero (or negative). -/
theorem C4_restoration_gating (env : List (String × String)) (power_budget : Int)
    (total : ℚ) (er sp : String → ℚ) (off : List String) (a : String)
    (enabled : Bool) (epr : List (String × ℚ)) :
    (balance_up_select env power_budget total er sp off = some a →
      balance_up_gate env power_budget total er sp a = true) ∧
    (balance_up_gate env power_budget total er sp a = true →
      (power_budget : ℚ) - total ≥ (if er a ≤ 0 then sp a else er a) ∧
      (if er a ≤ 0 then sp a else er a) > 0) ∧
    (auto_turn_on_fires enabled env a power_budget total epr = true →
      enabled = true ∧ (power_budget : ℚ) - total ≥ lookupD epr a 0) ∧
    (enabled = true → (getState env a = none ∨ getState env a = some "off") →
      (power_budget : ℚ) - total ≥ lookupD epr a 0 →
      auto_turn_on_fires enabled env a power_budget total epr = true) := by
  refine ⟨?_, ?_, ?_, ?_⟩
  · intro hsel
    exact List.find?_some hsel
  · intro hgate
    unfold balance_up_gate at hgate
    simp only [Bool.and_eq_true, decide_eq_true_eq] at hgate
    exact ⟨hgate.2.1, hgate.2.2⟩
  · intro hfires
    unfold auto_turn_on_fires at hfires
    simp only [Bool.and_eq_true, Bool.not_eq_true', decide_eq_false_iff_not, not_lt]
      at hfires
    exact ⟨hfires.1.1, hfires.2⟩
  · intro hen hst hge
    unfold auto_turn_on_fires
    rw [hen]
    have h2 : (match getState env a with
        | some s => decide (s = "off")
        | none => true) = true := by
      rcases hst with h | h <;> simp [h]
    rw [h2]
    simp [not_lt, hge]

/-- C4 witness, the spec's restoration-gating numbers: budget 1000 W, a shed
appliance observed off with expected wattage 150 W.  At total 900 W neither
path restores; at total 800 W the policy gate passes (and the theorem's
gate decomposition yields 200 >= 150 > 0) and the timer path fires. -/
theorem C4_restoration_gating_witness :
    balance_up_gate [("switch.a", "off")] 1000 900 (fun _ => 150) (fun _ => 0)
      "switch.a" = false ∧
    auto_turn_on_fires true [("switch.a", "off")] "switch.a" 1000 900
      [("switch.a", 150)] = false ∧
    balance_up_gate [("switch.a", "off")] 1000 800 (fun _ => 150) (fun _ => 0)
      "switch.a" = true ∧
    ((1000 : ℚ) - 800 ≥
        (if (fun _ => (150 : ℚ)) "switch.a" ≤ 0 then (fun _ => (0 : ℚ)) "switch.a"
         else (fun _ => (150 : ℚ)) "switch.a") ∧
      (if (fun _ => (150 : ℚ)) "switch.a" ≤ 0 then (fun _ => (0 : ℚ)) "switch.a"
       else (fun _ => (150 : ℚ)) "switch.a") > 0) ∧
    auto_turn_on_fires true [("switch.a", "off")] "switch.a" 1000 800
      [("switch.a", 150)] = true := by
  refine ⟨?_, ?_, ?_, ?_, ?_⟩
  · norm_num [balance_up_gate, getState]
  · norm_num [auto_turn_on_fires, getState, lookupD]
  · norm_num [balance_up_gate, getState]
  · exact (C4_restoration_gating [("switch.a", "off")] 1000 800 (fun _ => 150)
      (fun _ => 0) [] "switch.a" true [("switch.a", 150)]).2.1
      (by norm_num [balance_up_gate, getState])
  · exact (C4_restoration_gating [("switch.a", "off")] 1000 800 (fun _ => 150)
      (fun _ => 0) [] "switch.a" true [("switch.a", 150)]).2.2.2 rfl
      (Or.inr (by decide)) (by norm_num [lookupD])

/-! ### C5 -/

/-- Invariant maintained by the circuit breaker: a non-CLOSED circuit has a
failure counter at or above the threshold, and an OPEN circuit has a
recorded last-failure time. -/
def CBInv (cb : CircuitBreaker) : Prop :=
  (cb.state = CBState.open_ →
    cb.failure_count ≥ cb.failure_threshold ∧ cb.last_failure_time ≠ none) ∧
  (cb.state = CBState.halfOpen → cb.failure_count ≥ cb.failure_threshold)

instance : DecidablePred CBInv := fun cb => by
  unfold CBInv; infer_instance

/-- C5: the circuit-breaker state machine, for any breaker satisfying the
reachability invariant `CBInv` (which holds at initialisation and is
preserved by every call): the default threshold is 5 and the default
cooldown 60 s; in CLOSED every call is allowed; every executed failure
increments the consecutive-failure counter and records the failure time,
and the circuit is OPEN once the counter reaches the threshold; while OPEN
within the cooldown window every call is blocked with
`CircuitBreakerOpenError` without invoking the wrapped function and without
changing the breaker; once the cooldown has elapsed the next call runs in
HALF_OPEN, where a success resets the counter to 0 and closes the circuit
and a failure reopens it. -/
theorem C5_circuit_breaker (cb : CircuitBreaker) (now t : ℚ) (outcome : CallOutcome)
    (hinv : CBInv cb) :
    (CircuitBreaker.init.failure_threshold = 5 ∧ CircuitBreaker.init.timeout = 60 ∧
      CircuitBreaker.init.state = CBState.closed ∧ CBInv CircuitBreaker.init) ∧
    (cb.state = CBState.closed → (cb.call now outcome).1 ≠ CallResult.blockedOpen) ∧
    ((cb.call now CallOutcome.failure).1 = CallResult.raisedThrough →
      (cb.call now CallOutcome.failure).2.failure_count = cb.failure_count + 1 ∧
      (cb.call now CallOutcome.failure).2.last_failure_time = some now) ∧
    ((cb.call now CallOutcome.failure).1 = CallResult.raisedThrough →
      cb.failure_count + 1 ≥ cb.failure_threshold →
      (cb.call now CallOutcome.failure).2.state = CBState.open_) ∧
    (cb.state = CBState.open_ → cb.last_failure_time = some t → now - t < cb.timeout →
      cb.call now outcome = (CallResult.blockedOpen, cb)) ∧
    (cb.state = CBState.open_ → cb.last_failure_time = some t → now - t ≥ cb.timeout →
      (cb.call now CallOutcome.success).1 = CallResult.returned ∧
      (cb.call now CallOutcome.success).2.state = CBState.closed ∧
      (cb.call now CallOutcome.success).2.failure_count = 0 ∧
      (cb.call now CallOutcome.failure).1 = CallResult.raisedThrough ∧
      (cb.call now CallOutcome.failure).2.state = CBState.open_) ∧
    (cb.state = CBState.halfOpen →
      (cb.call now CallOutcome.success).2.state = CBState.closed ∧
      (cb.call now CallOutcome.success).2.failure_count = 0 ∧
      (cb.call now CallOutcome.failure).2.state = CBState.open_) ∧
    CBInv (cb.call now outcome).2 := by
  obtain ⟨hop, hho⟩ := hinv
  refine ⟨⟨rfl, rfl, rfl, by constructor <;> intro h <;> cases h⟩, ?_, ?_, ?_, ?_, ?_, ?_, ?_⟩
  · intro hst
    cases outcome <;>
      simp [CircuitBreaker.call, CircuitBreaker.should_allow_request, hst]
  · intro hexec
    match hst : cb.state with
    | CBState.closed =>
        simp only [CircuitBreaker.call, CircuitBreaker.should_allow_request,
          CircuitBreaker.record_failure, hst]
        split_ifs <;> simp_all
    | CBState.open_ =>
        match hl : cb.last_failure_time with
        | none =>
            simp [CircuitBreaker.call, CircuitBreaker.should_allow_request,
              hst, hl] at hexec
        | some t' =>
            by_cases hto : now - t' ≥ cb.timeout
            · simp only [CircuitBreaker.call, CircuitBreaker.should_allow_request,
                CircuitBreaker.record_failure, hst, hl, if_pos hto]
              split_ifs <;> simp_all
            · simp [CircuitBreaker.call, CircuitBreaker.should_allow_request,
                hst, hl, hto] at hexec
    | CBState.halfOpen =>
        simp only [CircuitBreaker.call, CircuitBreaker.should_allow_request,
          CircuitBreaker.record_failure, hst]
        split_ifs <;> simp_all
  · intro hexec hth
    match hst : cb.state with
    | CBState.closed =>
        simp [CircuitBreaker.call, CircuitBreaker.should_allow_request,
          CircuitBreaker.record_failure, hst, hth]
    | CBState.open_ =>
        match hl : cb.last_failure_time with
        | none =>
            simp [CircuitBreaker.call, CircuitBreaker.should_allow_request,
              hst, hl] at hexec
        | some t' =>
            by_cases hto : now - t' ≥ cb.timeout
            · simp [CircuitBreaker.call, CircuitBreaker.should_allow_request,
                CircuitBreaker.record_failure, hst, hl, hto, hth]
            · simp [CircuitBreaker.call, CircuitBreaker.should_allow_request,
                hst, hl, hto] at hexec
    | CBState.halfOpen =>
        simp [CircuitBreaker.call, CircuitBreaker.should_allow_request,
          CircuitBreaker.record_failure, hst, hth]
  · intro hst hl hlt
    have hto : ¬ now - t ≥ cb.timeout := not_le.mpr hlt
    cases outcome <;>
      simp [CircuitBreaker.call, CircuitBreaker.should_allow_request, hst, hl, hto]
  · intro hst hl hto
    have hth : cb.failure_count + 1 ≥ cb.failure_threshold :=
      le_trans (hop hst).1 (Nat.le_succ _)
    refine ⟨?_, ?_, ?_, ?_, ?_⟩ <;>
      simp [CircuitBreaker.call, CircuitBreaker.should_allow_request,
        CircuitBreaker.record_success, CircuitBreaker.record_failure, hst, hl, hto, hth]
  · intro hst
    have hth : cb.failure_count + 1 ≥ cb.failure_threshold :=
      le_trans (hho hst) (Nat.le_succ _)
    refine ⟨?_, ?_, ?_⟩ <;>
      simp [CircuitBreaker.call, CircuitBreaker.should_allow_request,
        CircuitBreaker.record_success, CircuitBreaker.record_failure, hst, hth]
  · match hst : cb.state with
    | CBState.closed =>
        cases outcome
        · simp [CircuitBreaker.call, CircuitBreaker.should_allow_request,
            CircuitBreaker.record_success, hst, CBInv]
        · by_cases hth : cb.failure_count + 1 ≥ cb.failure_threshold <;>
            simp [CircuitBreaker.call, CircuitBreaker.should_allow_request,
              CircuitBreaker.record_failure, hst, hth, CBInv]
    | CBState.open_ =>
        match hl : cb.last_failure_time with
        | none =>
            have hres : cb.call now outcome = (CallResult.blockedOpen, cb) := by
              cases outcome <;>
                simp [CircuitBreaker.call, CircuitBreaker.should_allow_request, hst, hl]
            rw [hres]
            exact ⟨hop, hho⟩
        | some t' =>
            by_cases hto : now - t' ≥ cb.timeout
            · have hth : cb.failure_count + 1 ≥ cb.failure_threshold :=
                le_trans (hop hst).1 (Nat.le_succ _)
              cases outcome <;>
                simp [CircuitBreaker.call, CircuitBreaker.should_allow_request,
                  CircuitBreaker.record_success, CircuitBreaker.record_failure,
                  hst, hl, hto, hth, CBInv]
            · have hres : cb.call now outcome = (CallResult.blockedOpen, cb) := by
                cases outcome <;>
                  simp [CircuitBreaker.call, CircuitBreaker.should_allow_request,
                    hst, hl, hto]
              rw [hres]
              exact ⟨hop, hho⟩
    | CBState.halfOpen =>
        have hth : cb.failure_count + 1 ≥ cb.failure_threshold :=
          le_trans (hho hst) (Nat.le_succ _)
        cases outcome <;>
          simp [CircuitBreaker.call, CircuitBreaker.should_allow_request,
            CircuitBreaker.record_success, CircuitBreaker.record_failure,
            hst, hth, CBInv]

/-- C5 witness, the spec's breaker-trip scenario: 5 consecutive failures
(at times 0..4) open the circuit; a 6th call at time 10, inside the 60 s
cooldown, fails fast with `CircuitBreakerOpenError` without invoking the
wrapped function and without changing the breaker; a call at time 70, after
the cooldown, is let through and its success closes the circuit and resets
the counter to 0. -/
theorem C5_circuit_breaker_witness :
    (CircuitBreaker.init.run [(0, CallOutcome.failure), (1, CallOutcome.failure),
        (2, CallOutcome.failure), (3, CallOutcome.failure), (4, CallOutcome.failure)]).2
      = ⟨5, 60, 5, some 4, CBState.open_⟩ ∧
    CircuitBreaker.call ⟨5, 60, 5, some 4, CBState.open_⟩ 10 CallOutcome.failure
      = (CallResult.blockedOpen, ⟨5, 60, 5, some 4, CBState.open_⟩) ∧
    (CircuitBreaker.call ⟨5, 60, 5, some 4, CBState.open_⟩ 70 CallOutcome.success).1
      = CallResult.returned ∧
    (CircuitBreaker.call ⟨5, 60, 5, some 4, CBState.open_⟩ 70 CallOutcome.success).2.state
      = CBState.closed ∧
    (CircuitBreaker.call ⟨5, 60, 5, some 4, CBState.open_⟩ 70
        CallOutcome.success).2.failure_count = 0 := by
  have hinv : CBInv ⟨5, 60, 5, some 4, CBState.open_⟩ := by
    constructor
    · intro _
      exact ⟨le_refl 5, by simp⟩
    · intro h
      cases h
  have h5 := C5_circuit_breaker ⟨5, 60, 5, some 4, CBState.open_⟩ 10 4
    CallOutcome.failure hinv
  have h6 := C5_circuit_breaker ⟨5, 60, 5, some 4, CBState.open_⟩ 70 4
    CallOutcome.success hinv
  refine ⟨by decide, ?_, ?_, ?_, ?_⟩
  · exact h5.2.2.2.2.1 rfl rfl (by norm_num)
  · exact (h6.2.2.2.2.2.1 rfl rfl (by norm_num)).1
  · exact (h6.2.2.2.2.2.1 rfl rfl (by norm_num)).2.1
  · exact (h6.2.2.2.2.2.1 rfl rfl (by norm_num)).2.2.1

/-! ### C6 -/

/-- The retry loop makes at least one invocation when given any fuel. -/
theorem retryFrom_invocations_pos (b d : ℚ) (outcomes : Nat → AttemptOutcome) :
    ∀ (fuel attempt : Nat), 1 ≤ fuel →
      1 ≤ (retryFrom b d outcomes fuel attempt).invocations := by
  intro fuel attempt hfuel
  match fuel, hfuel with
  | fuel + 1, _ =>
      unfold retryFrom
      cases outcomes attempt <;> simp only []
      · exact le_refl 1
      · split_ifs
        · exact le_refl 1
        · exact Nat.le_add_left 1 _
      · exact le_refl 1

/-- The retry loop never invokes the wrapped function more often than it has
fuel for. -/
theorem retryFrom_invocations_le (b d : ℚ) (outcomes : Nat → AttemptOutcome) :
    ∀ (fuel attempt : Nat), (retryFrom b d outcomes fuel attempt).invocations ≤ fuel := by
  intro fuel
  induction fuel with
  | zero => intro attempt; simp [retryFrom]
  | succ f ih =>
      intro attempt
      unfold retryFrom
      cases outcomes attempt <;> simp only []
      · exact Nat.le_add_left 1 f
      · split_ifs
        · exact Nat.le_add_left 1 f
        · exact Nat.add_le_add_right (ih (attempt + 1)) 1
      · exact Nat.le_add_left 1 f

/-- The delays slept by the retry loop follow the exponential-backoff
formula `min (b * 2 ^ attempt) d`, one delay before each retry. -/
theorem retryFrom_delays (b d : ℚ) (outcomes : Nat → AttemptOutcome) :
    ∀ (fuel attempt : Nat),
      (retryFrom b d outcomes fuel attempt).delays
        = (List.range ((retryFrom b d outcomes fuel attempt).invocations - 1)).map
            (fun i => min (b * 2 ^ (attempt + i)) d) := by
  intro fuel
  induction fuel with
  | zero => intro attempt; simp [retryFrom]
  | succ f ih =>
      intro attempt
      unfold retryFrom
      cases outcomes attempt <;> simp only []
      · simp
      · split_ifs
        · simp
        · have hpos : 1 ≤ (retryFrom b d outcomes f (attempt + 1)).invocations :=
            retryFrom_invocations_pos b d outcomes f (attempt + 1)
              (Nat.one_le_iff_ne_zero.mpr (by assumption))
          obtain ⟨m, hm⟩ := Nat.exists_eq_add_of_le hpos
          simp only [hm, Nat.add_sub_cancel_left, Nat.add_sub_cancel]
          rw [Nat.add_comm 1 m, List.range_succ_eq_map, List.map_cons, List.map_map]
          have hrest := ih (attempt + 1)
          rw [hm, show (1 : Nat) + m - 1 = m from by omega] at hrest
          rw [hrest]
          refine List.cons_eq_cons.mpr ⟨by rw [Nat.add_zero], ?_⟩
          congr 1
          funext i
          simp only [Function.comp, Nat.succ_eq_add_one]
          rw [show attempt + (i + 1) = attempt + 1 + i from by omega]
      · simp

/-- C6: the retry wrapper as instantiated for appliance turn-off
(`@retry_with_backoff(max_retries=2, backoff_factor=0.5)` on
`_turn_off_appliance` / `ApplianceController.turn_off_appliance`, with the
default `max_delay = 60`).  A non-retryable exception on the first
invocation propagates immediately after exactly one invocation and no
delay; if every invocation raises a retryable error the wrapped function is
invoked exactly `max_retries + 1 = 3` times, sleeping 0.5 s then 1.0 s
before the retries, and the final retryable error propagates; in general at
most `max_retries + 1` invocations are made and every delay slept is
`min(backoff_factor * 2 ^ attempt, max_delay)` for its attempt index. -/
theorem C6_retry_backoff (outcomes : Nat → AttemptOutcome) :
    (outcomes 0 = AttemptOutcome.nonRetryableErr →
      retry_with_backoff 2 (1/2) 60 outcomes
        = ⟨1, [], RetryEnd.raisedNonRetryable⟩) ∧
    ((∀ k, outcomes k = AttemptOutcome.retryableErr) →
      retry_with_backoff 2 (1/2) 60 outcomes
        = ⟨3, [1/2, 1], RetryEnd.raisedRetryable⟩) ∧
    (retry_with_backoff 2 (1/2) 60 outcomes).invocations ≤ 3 ∧
    (∀ (n : Nat) (b d : ℚ),
      (retry_with_backoff n b d outcomes).invocations ≤ n + 1 ∧
      (retry_with_backoff n b d outcomes).delays
        = (List.range ((retry_with_backoff n b d outcomes).invocations - 1)).map
            (fun i => min (b * 2 ^ i) d)) := by
  refine ⟨?_, ?_, ?_, ?_⟩
  · intro h
    simp [retry_with_backoff, retryFrom, h]
  · intro h
    simp only [retry_with_backoff]
    unfold retryFrom
    rw [h 0]
    simp only [Nat.add_eq_zero, and_false, if_false, OfNat.ofNat_ne_zero]
    unfold retryFrom
    rw [h 1]
    simp only [Nat.add_eq_zero, and_false, if_false, OfNat.ofNat_ne_zero]
    unfold retryFrom
    rw [h 2]
    norm_num
  · exact retryFrom_invocations_le (1/2) 60 outcomes 3 0
  · intro n b d
    refine ⟨retryFrom_invocations_le b d outcomes (n + 1) 0, ?_⟩
    have h := retryFrom_delays b d outcomes (n + 1) 0
    simpa using h

/-- C6 witness: the theorem applied to a function that always fails
retryably (3 invocations, delays 0.5 s then 1.0 s, final error propagated)
and to one that fails non-retryably at once (a single invocation, no
delay). -/
theorem C6_retry_backoff_witness :
    retry_with_backoff 2 (1/2) 60 (fun _ => AttemptOutcome.retryableErr)
      = ⟨3, [1/2, 1], RetryEnd.raisedRetryable⟩ ∧
    retry_with_backoff 2 (1/2) 60 (fun _ => AttemptOutcome.nonRetryableErr)
      = ⟨1, [], RetryEnd.raisedNonRetryable⟩ :=
  ⟨(C6_retry_backoff (fun _ => AttemptOutcome.retryableErr)).2.1 (fun _ => rfl),
   (C6_retry_backoff (fun _ => AttemptOutcome.nonRetryableErr)).1 rfl⟩

end PLB
